import Mathlib

/-!
Verification of the Namma-A-Eye intrusion-monitoring pipeline (`src/main.py`).

The Python source is shallowly embedded: floats become rationals, byte
buffers become lists of naturals, the external collaborators (OpenCV, SMTP,
MySQL) are modelled by small executable functions or by explicit outcome
oracles, and the side-effecting pipeline `video_capture` becomes a function
from a list of per-iteration inputs to a trace of observable actions.
-/

namespace NammaAEye

/-! ### Python rounding

`round` in Python rounds half to even ("banker's rounding").
`model_predict` uses `round(box.conf[0].item(), 2)` and
`[round(x) for x in coordinates]` (main.py lines 113-114). -/

/-- Python `round(q)`: nearest integer, ties to even. -/
def pyRound (q : ℚ) : ℤ :=
  let f : ℤ := ⌊q⌋
  let r : ℚ := q - f
  if r < 1/2 then f
  else if 1/2 < r then f + 1
  else if f % 2 = 0 then f else f + 1

/-- `pyRound` below the half point is the floor. -/
theorem pyRound_eq_floor {q : ℚ} (h : q - ⌊q⌋ < 1/2) : pyRound q = ⌊q⌋ := by
  simp only [pyRound]
  rw [if_pos h]

/-- `pyRound` above the half point is the ceiling. -/
theorem pyRound_eq_floor_add_one {q : ℚ} (h : 1/2 < q - ⌊q⌋) :
    pyRound q = ⌊q⌋ + 1 := by
  simp only [pyRound]
  rw [if_neg (by linarith), if_pos h]

/-- `pyRound` of an integer is itself. -/
theorem pyRound_intCast (n : ℤ) : pyRound (n : ℚ) = n := by
  apply pyRound_eq_floor
  simp

/-- Python `round(q, 2)`: round to two decimal places (main.py line 114). -/
def pyRound2 (q : ℚ) : ℚ := (pyRound (q * 100) : ℚ) / 100

/-! ### Timestamps

`video_capture` stamps events with
`datetime.now(tz).strftime('%Y-%m-%d %H:%M:%S')` (main.py line 68);
`mail_trigger` re-parses that string with
`strptime(timestamp, "%Y-%m-%d %H:%M:%S")` and re-formats it as
`'%d-%B-%Y [%A], %H:%M:%S'` (main.py lines 159-160).  Wall-clock instants
are embedded as a record of calendar fields. -/

structure DateTime where
  year : ℕ
  month : ℕ
  day : ℕ
  hour : ℕ
  minute : ℕ
  second : ℕ
  deriving DecidableEq, Repr

/-- The character for a single decimal digit. -/
def digitChar (d : ℕ) : Char := Char.ofNat (48 + d)

/-- Numeric value of a decimal digit character, `none` on a non-digit. -/
def digitVal (c : Char) : Option ℕ :=
  if c.isDigit then some (c.toNat - 48) else none

/-- Zero-padded two-digit decimal field (`%m`, `%d`, `%H`, `%M`, `%S`). -/
def pad2 (n : ℕ) : String := String.mk [digitChar (n / 10), digitChar (n % 10)]

/-- Four-digit decimal year field (`%Y`). -/
def pad4 (n : ℕ) : String :=
  String.mk [digitChar (n / 1000), digitChar (n / 100 % 10),
             digitChar (n / 10 % 10), digitChar (n % 10)]

/-- `strftime('%Y-%m-%d %H:%M:%S')` (main.py line 68). -/
def strftime_YmdHMS (t : DateTime) : String :=
  pad4 t.year ++ "-" ++ pad2 t.month ++ "-" ++ pad2 t.day ++ " " ++
  pad2 t.hour ++ ":" ++ pad2 t.minute ++ ":" ++ pad2 t.second

/-- Gregorian leap year. -/
def isLeap (y : ℕ) : Bool := (y % 4 == 0 && y % 100 != 0) || y % 400 == 0

/-- Number of days of month `m` in year `y`. -/
def daysInMonth (y m : ℕ) : ℕ :=
  if m = 2 then (if isLeap y then 29 else 28)
  else if m = 4 ∨ m = 6 ∨ m = 9 ∨ m = 11 then 30
  else 31

/-- The calendar fields that `datetime` accepts (year at most 9999, month,
day, hour, minute, second in range). -/
def validDT (t : DateTime) : Prop :=
  t.year ≤ 9999 ∧ 1 ≤ t.month ∧ t.month ≤ 12 ∧ 1 ≤ t.day ∧
  t.day ≤ daysInMonth t.year t.month ∧ t.hour ≤ 23 ∧ t.minute ≤ 59 ∧
  t.second ≤ 59

instance (t : DateTime) : Decidable (validDT t) := by
  unfold validDT; infer_instance

/-- Parse a two-digit decimal field. -/
def parse2 (c1 c2 : Char) : Option ℕ := do
  let a ← digitVal c1
  let b ← digitVal c2
  pure (10 * a + b)

/-- Parse a four-digit decimal field. -/
def parse4 (c1 c2 c3 c4 : Char) : Option ℕ := do
  let a ← digitVal c1
  let b ← digitVal c2
  let c ← digitVal c3
  let d ← digitVal c4
  pure (1000 * a + 100 * b + 10 * c + d)

/-- Field-level worker for `strptime`: a timestamp is exactly 19
characters, digits at the field positions and the literal separators
`-`, `-`, space, `:`, `:` in between. -/
def strptimeChars : List Char → Option DateTime
  | [y1, y2, y3, y4, c1, mo1, mo2, c2, d1, d2, c3,
     h1, h2, c4, mi1, mi2, c5, s1, s2] =>
    if c1 = '-' ∧ c2 = '-' ∧ c3 = ' ' ∧ c4 = ':' ∧ c5 = ':' then do
      let y ← parse4 y1 y2 y3 y4
      let mo ← parse2 mo1 mo2
      let d ← parse2 d1 d2
      let h ← parse2 h1 h2
      let mi ← parse2 mi1 mi2
      let se ← parse2 s1 s2
      if 1 ≤ mo ∧ mo ≤ 12 ∧ 1 ≤ d ∧ d ≤ daysInMonth y mo ∧ h ≤ 23 ∧
         mi ≤ 59 ∧ se ≤ 59 then
        some ⟨y, mo, d, h, mi, se⟩
      else none
    else none
  | _ => none

/-- `datetime.strptime(s, "%Y-%m-%d %H:%M:%S")` (main.py line 159): parse
the fixed-width timestamp string, validating the calendar fields; `none`
models the `ValueError` raised on malformed input. -/
def strptime_YmdHMS (s : String) : Option DateTime :=
  strptimeChars s.toList

theorem digitVal_digitChar {d : ℕ} (h : d < 10) :
    digitVal (digitChar d) = some d := by
  interval_cases d <;> rfl

theorem parse2_pad2 {n : ℕ} (h : n ≤ 99) :
    parse2 (digitChar (n / 10)) (digitChar (n % 10)) = some n := by
  have h1 : n / 10 < 10 := by omega
  have h2 : n % 10 < 10 := by omega
  simp [parse2, digitVal_digitChar h1, digitVal_digitChar h2]
  omega

theorem parse4_pad4 {n : ℕ} (h : n ≤ 9999) :
    parse4 (digitChar (n / 1000)) (digitChar (n / 100 % 10))
      (digitChar (n / 10 % 10)) (digitChar (n % 10)) = some n := by
  have h1 : n / 1000 < 10 := by omega
  simp [parse4, digitVal_digitChar h1, digitVal_digitChar (Nat.mod_lt _ (by norm_num) : n / 100 % 10 < 10),
        digitVal_digitChar (Nat.mod_lt _ (by norm_num) : n / 10 % 10 < 10),
        digitVal_digitChar (Nat.mod_lt _ (by norm_num) : n % 10 < 10)]
  omega

/-- Re-parsing a formatted valid timestamp recovers the instant: the
string handed from `video_capture` line 68 to `mail_trigger` line 159
round-trips. -/
theorem strptime_strftime (t : DateTime) (h : validDT t) :
    strptime_YmdHMS (strftime_YmdHMS t) = some t := by
  obtain ⟨hy, hm1, hm2, hd1, hd2, hh, hmi, hs⟩ := h
  have hm99 : t.month ≤ 99 := by omega
  have hd99 : t.day ≤ 99 := by
    have := hd2
    unfold daysInMonth at this
    split_ifs at this <;> omega
  have hh99 : t.hour ≤ 99 := by omega
  have hmi99 : t.minute ≤ 99 := by omega
  have hs99 : t.second ≤ 99 := by omega
  have hlist : (strftime_YmdHMS t).toList =
      [digitChar (t.year / 1000), digitChar (t.year / 100 % 10),
       digitChar (t.year / 10 % 10), digitChar (t.year % 10), '-',
       digitChar (t.month / 10), digitChar (t.month % 10), '-',
       digitChar (t.day / 10), digitChar (t.day % 10), ' ',
       digitChar (t.hour / 10), digitChar (t.hour % 10), ':',
       digitChar (t.minute / 10), digitChar (t.minute % 10), ':',
       digitChar (t.second / 10), digitChar (t.second % 10)] := by
    simp [strftime_YmdHMS, pad4, pad2, String.toList]
  unfold strptime_YmdHMS
  rw [hlist]
  simp only [strptimeChars, parse4_pad4 hy, parse2_pad2 hm99, parse2_pad2 hd99,
    parse2_pad2 hh99, parse2_pad2 hmi99, parse2_pad2 hs99, Option.some_bind,
    if_true]
  simp only [Option.bind_eq_bind, Option.some_bind]
  have hcond : 1 ≤ t.month ∧ t.month ≤ 12 ∧ 1 ≤ t.day ∧
      t.day ≤ daysInMonth t.year t.month ∧ t.hour ≤ 23 ∧ t.minute ≤ 59 ∧
      t.second ≤ 59 := ⟨hm1, hm2, hd1, hd2, hh, hmi, hs⟩
  rw [if_pos hcond]
  simp

/-! ### The e-mail subject timestamp format

`mail_trigger` re-formats the parsed timestamp with
`strftime('%d-%B-%Y [%A], %H:%M:%S')` (main.py line 160): zero-padded day,
full month name, year, full weekday name, time of day. -/

/-- Full month name (`%B`). -/
def monthName (m : ℕ) : String :=
  (["January", "February", "March", "April", "May", "June", "July",
    "August", "September", "October", "November", "December"]).getD (m - 1) ""

/-- Day of week by Zeller's congruence for the Gregorian calendar:
0 is Saturday, 1 Sunday, 2 Monday, and so on. -/
def zeller (y m d : ℕ) : ℕ :=
  let y2 := if m ≤ 2 then y - 1 else y
  let m2 := if m ≤ 2 then m + 12 else m
  let K := y2 % 100
  let J := y2 / 100
  (d + 13 * (m2 + 1) / 5 + K + K / 4 + J / 4 + 5 * J) % 7

/-- Full weekday name (`%A`). -/
def weekdayName (y m d : ℕ) : String :=
  (["Saturday", "Sunday", "Monday", "Tuesday", "Wednesday", "Thursday",
    "Friday"]).getD (zeller y m d) ""

/-- `strftime('%d-%B-%Y [%A], %H:%M:%S')` (main.py line 160). -/
def strftime_dBYA (t : DateTime) : String :=
  pad2 t.day ++ "-" ++ monthName t.month ++ "-" ++ pad4 t.year ++ " [" ++
  weekdayName t.year t.month t.day ++ "], " ++ pad2 t.hour ++ ":" ++
  pad2 t.minute ++ ":" ++ pad2 t.second

/-! ### Byte-level models of the external image collaborators

Byte buffers are lists of naturals.  The OpenCV and matplotlib calls the
pipeline makes are modelled by small executable functions that keep
exactly the structure the verification depends on. -/

/-- Model of the external `cv2.cvtColor(img, cv2.COLOR_BGR2RGB)` call
(main.py lines 58 and 227): swaps the first and third byte of every
three-byte pixel group; length-preserving, self-inverse, and never adds
or removes data. -/
def cvtColor_BGR2RGB : List ℕ → List ℕ
  | b :: g :: r :: rest => r :: g :: b :: cvtColor_BGR2RGB rest
  | rest => rest

/-- Model of the external JPEG encoder `cv2.imencode(".jpg", img)`
(main.py lines 59 and 228): the encoded stream is the two-byte JPEG
start-of-image marker `0xFF 0xD8` followed by the payload.  The payload is
modelled as the input itself; the development relies only on the encoder
prepending the marker, so that encoding is injective and never the
identity. -/
def imencode_jpg (bs : List ℕ) : List ℕ := 255 :: 216 :: bs

/-- Model of the external `plt.imshow` + `plt.savefig(io, format='jpeg')`
rendering (main.py lines 168-173): a JPEG-encoded rendering of the handed
byte buffer. -/
def savefig_jpeg (bs : List ℕ) : List ℕ := imencode_jpg bs

/-! ### Detection adapter: `model_predict` (main.py lines 79-124)

A YOLO result carries a class-id-to-name table `names` and a list of
boxes, each with a class id, corner coordinates and a confidence. -/

structure Box where
  cls : ℕ
  xyxy : List ℚ
  conf : ℚ

structure Prediction where
  names : ℕ → String
  boxes : List Box

/-- One entry of the list `model_predict` returns (main.py lines 117-121):
keys `class`, `coordinates`, `probability`. -/
structure DetectedObject where
  cls : String
  coordinates : List ℤ
  probability : ℚ
  deriving DecidableEq

/-- `model_predict` (main.py lines 104-124): takes the first prediction,
walks its boxes in order, rounds the coordinates and rounds the
confidence to two decimals, and appends the box to the result exactly
when the class name is `Intruder` and the rounded confidence exceeds
`0.5`. -/
def model_predict (predictions : List Prediction) : List DetectedObject :=
  match predictions with
  | [] => []
  | prediction :: _ =>
    prediction.boxes.filterMap (fun box =>
      let class_name := prediction.names box.cls
      let coordinates := box.xyxy.map pyRound
      let probability := pyRound2 box.conf
      if class_name = "Intruder" ∧ (1/2 : ℚ) < probability then
        some { cls := class_name, coordinates := coordinates,
               probability := probability }
      else none)

/-! ### Configuration (`load_config`, main.py lines 16-29)

The fields of `config.json` the pipeline reads. -/

structure Config where
  video_url : String
  model_weights_path : String
  sender_email : String
  sender_password : String
  smtp_server : String
  smtp_port : ℕ
  recipient_email : String
  db_host : String
  db_user : String
  db_port : ℕ
  db_password : String
  db_name : String

/-! ### Alert dispatcher: `mail_trigger` (main.py lines 127-193)

The SMTP collaborator is modelled by an oracle for the outcome of the
`SMTP`/`starttls`/`login`/`send_message`/`quit` block. -/

/-- Outcome of one SMTP send attempt: either the message was sent, or
some step of the transport raised an exception with a message. -/
inductive SmtpResult where
  | sent
  | exn (msg : String)

/-- One attached binary part (`MIMEImage`, main.py lines 176-178). -/
structure MimePart where
  content : List ℕ
  subtype : String
  filename : String
  deriving DecidableEq

/-- The multipart message `mail_trigger` builds (main.py lines 163-182). -/
structure MailMessage where
  fromAddr : String
  toAddr : String
  subject : String
  imagePart : MimePart
  bodyText : String
  deriving DecidableEq

/-- What one call of `mail_trigger` did. -/
structure MailRun where
  /-- The message built, `none` when `strptime` raised before building. -/
  message : Option MailMessage
  /-- Number of transport send attempts (0 or 1; there is no retry). -/
  sendAttempts : ℕ
  /-- Whether the message was sent. -/
  sent : Bool
  /-- The line printed after the try block. -/
  log : Option String
  /-- An exception propagating out of `mail_trigger`; the try/except at
  lines 185-193 catches every transport error, so this is `some` only for
  the `strptime` `ValueError` at line 159, which is raised outside it. -/
  error : Option String

/-- `mail_trigger(image, timestamp, config)` (main.py lines 127-193):
re-parse the timestamp, build the multipart message with the rendered
image attached as a JPEG part and the subject and body embedding the
re-formatted timestamp, then attempt the SMTP send once, catching and
logging any transport exception. -/
def mail_trigger (smtp : SmtpResult) (image : List ℕ) (timestamp : String)
    (config : Config) : MailRun :=
  match strptime_YmdHMS timestamp with
  | none =>
    { message := none, sendAttempts := 0, sent := false, log := none,
      error := some "ValueError" }
  | some t =>
    let ts := strftime_dBYA t
    let message : MailMessage :=
      { fromAddr := config.sender_email
        toAddr := config.recipient_email
        subject := "*Intruder Alert" ++ " : " ++ ts ++ " " ++ "Hours*"
        imagePart :=
          { content := savefig_jpeg image, subtype := "jpeg",
            filename := "image.jpg" }
        bodyText := "Dear Control Room, \n This is to keep you informed " ++
          "that an intruder has entered the campus at" ++ " " ++ ts ++ " " ++
          "Hours" }
    match smtp with
    | .sent =>
      { message := some message, sendAttempts := 1, sent := true,
        log := some "Email sent successfully", error := none }
    | .exn e =>
      { message := some message, sendAttempts := 1, sent := false,
        log := some ("Failed to send email: " ++ e), error := none }

/-! ### Event store: `database_entry` (main.py lines 196-236)

The MySQL collaborator is modelled by an oracle saying which of the
`connect`, `execute` and `commit` steps succeed. -/

structure DbOracle where
  connectOk : Bool
  executeOk : Bool
  commitOk : Bool
  deriving DecidableEq

/-- One row of the `intruder_log` table (main.py line 231). -/
structure Row where
  image : List ℕ
  captured_time : String
  deriving DecidableEq

/-- What one call of `database_entry` did. -/
structure DbRun where
  /-- Whether `pymysql.connect` returned a connection. -/
  connAcquired : Bool
  /-- The rows committed to `intruder_log`; reading the store back
  returns exactly these. -/
  inserted : List Row
  /-- Whether `connection.close()` (line 236) ran. -/
  connClosed : Bool
  /-- An exception propagating out of `database_entry`; nothing in the
  function catches. -/
  error : Option String
  deriving DecidableEq

/-- `database_entry(image, timestamp, config)` (main.py lines 196-236):
connect, colour-convert and re-encode the handed image, execute the
parameterized insert, commit, then close the cursor and the connection.
There is no try/finally: an exception in any step skips every later
step, including both closes, and propagates. -/
def database_entry (o : DbOracle) (image : List ℕ) (timestamp : String) :
    DbRun :=
  if o.connectOk = false then
    { connAcquired := false, inserted := [], connClosed := false,
      error := some "connect failed" }
  else
    let image2 := cvtColor_BGR2RGB image
    let image_bytes := imencode_jpg image2
    if o.executeOk = false then
      { connAcquired := true, inserted := [], connClosed := false,
        error := some "execute failed" }
    else if o.commitOk = false then
      { connAcquired := true, inserted := [], connClosed := false,
        error := some "commit failed" }
    else
      { connAcquired := true,
        inserted := [{ image := image_bytes, captured_time := timestamp }],
        connClosed := true, error := none }

/-! ### Pipeline controller: `video_capture` (main.py lines 32-76)

One invocation of `video_capture` reads a single frame (the `while` loop
always leaves after its first iteration: `break` at line 56 on a failed
read, `break` at line 71 otherwise), handles it, sleeps 30 seconds and
recurses.  The observable behaviour is a trace of actions over a list of
per-invocation inputs. -/

/-- An observable step of the pipeline. -/
inductive Action where
  /-- `cv2.VideoCapture(config["video_url"])` (line 49). -/
  | openSource
  /-- The line printed when `video.read()` fails (line 55). -/
  | logReadError
  /-- One SMTP send attempt, with the message subject and outcome. -/
  | mailAttempt (subject : String) (sent : Bool)
  /-- `database_entry` invoked for an event. -/
  | dbCall (timestamp : String)
  /-- A row committed to `intruder_log`. -/
  | dbInsert (row : Row)
  /-- `time.sleep(delay_time)` (line 74). -/
  | sleep (n : ℕ)
  deriving DecidableEq

/-- The inputs one invocation of `video_capture` sees: the frame read
(`none` models `ret == False`), the clock, and the outcome oracles for
the SMTP and MySQL collaborators of the events of this frame, indexed by
the position of the event in the frame. -/
structure Session where
  read : Option (List ℕ × List Prediction)
  now : DateTime
  smtp : ℕ → SmtpResult
  db : ℕ → DbOracle

/-- Mail-related actions of a `MailRun`: one `mailAttempt` when the
transport block ran. -/
def mailActs (r : MailRun) : List Action :=
  match r.message with
  | some m => [Action.mailAttempt m.subject r.sent]
  | none => []

/-- Handling of one admitted detection (main.py lines 68-70): stamp the
time, call `mail_trigger`, then call `database_entry`; an uncaught
exception from either call aborts with its error. -/
def processEvent (config : Config) (smtp : SmtpResult) (dbo : DbOracle)
    (image_data : List ℕ) (now : DateTime) : List Action × Option String :=
  let timestamp := strftime_YmdHMS now
  let mr := mail_trigger smtp image_data timestamp config
  match mr.error with
  | some e => (mailActs mr, some e)
  | none =>
    let dr := database_entry dbo image_data timestamp
    (mailActs mr ++ Action.dbCall timestamp :: dr.inserted.map Action.dbInsert,
     dr.error)

/-- The `for detected_object in detected_objects` loop (main.py lines
62-71): each detection with `class == 'Intruder' and probability > 0.5`
is handled by `processEvent`; an exception stops the loop and
propagates. -/
def processDetections (config : Config) (s : Session) (image_data : List ℕ) :
    List DetectedObject → ℕ → List Action × Option String
  | [], _ => ([], none)
  | d :: ds, i =>
    if d.cls = "Intruder" ∧ (1/2 : ℚ) < d.probability then
      match processEvent config (s.smtp i) (s.db i) image_data s.now with
      | (acts, some e) => (acts, some e)
      | (acts, none) =>
        let rest := processDetections config s image_data ds (i + 1)
        (acts ++ rest.1, rest.2)
    else processDetections config s image_data ds i

/-- One iteration of the `while` loop (main.py lines 51-71): a failed
read prints and leaves; otherwise the frame is colour-converted,
JPEG-encoded, run through `model_predict`, and its detections are
processed. -/
def runSession (config : Config) (s : Session) :
    List Action × Option String :=
  match s.read with
  | none => ([Action.logReadError], none)
  | some (frame, predictions) =>
    let image_data := imencode_jpg (cvtColor_BGR2RGB frame)
    processDetections config s image_data (model_predict predictions) 0

/-- `video_capture` (main.py lines 32-76) over a list of successive
invocation inputs: open the source, run one capture iteration; if an
exception escaped, the process dies there; otherwise sleep 30 and
recurse, which reopens the source. -/
def video_capture (config : Config) : List Session → List Action
  | [] => [Action.openSource]
  | s :: rest =>
    match runSession config s with
    | (acts, some _) => Action.openSource :: acts
    | (acts, none) =>
      Action.openSource :: (acts ++ Action.sleep 30 ::
        video_capture config rest)

/-- The committed rows of a trace fragment. -/
def insertedRows (acts : List Action) : List Row :=
  acts.filterMap (fun a => match a with
    | Action.dbInsert r => some r
    | _ => none)

/-- The events forwarded to the dispatcher and the store, with the time
at which they happened: invocation `i` of `video_capture` runs at
`t0 + 30 * i`, since successive invocations are separated by the
`time.sleep(30)` at line 74, and every event of one invocation shares
its frame's instant. -/
def forwardedEvents (config : Config) (t0 : ℕ) :
    List Session → List (ℕ × Row)
  | [] => []
  | s :: rest =>
    match runSession config s with
    | (acts, some _) => (insertedRows acts).map (fun r => (t0, r))
    | (acts, none) =>
      (insertedRows acts).map (fun r => (t0, r)) ++
        forwardedEvents config (t0 + 30) rest

/-- Count of SMTP send attempts in a trace fragment. -/
def countMail (acts : List Action) : ℕ :=
  (acts.filter (fun a => match a with
    | Action.mailAttempt _ _ => true
    | _ => false)).length

/-- Count of `database_entry` invocations in a trace fragment. -/
def countDb (acts : List Action) : ℕ :=
  (acts.filter (fun a => match a with
    | Action.dbCall _ => true
    | _ => false)).length

/-! ### Concrete fixtures used by the witnesses and counterexamples -/

/-- A sample configuration. -/
def cfg0 : Config :=
  { video_url := "http://cam", model_weights_path := "best.pt",
    sender_email := "alert@campus", sender_password := "pw",
    smtp_server := "smtp.campus", smtp_port := 587,
    recipient_email := "control@campus", db_host := "localhost",
    db_user := "root", db_port := 3306, db_password := "pw",
    db_name := "namma" }

/-- All database steps succeed. -/
def okDb : DbOracle := ⟨true, true, true⟩

/-- A sample instant: 2023-06-15 10:00:00 (a Thursday). -/
def dt0 : DateTime := ⟨2023, 6, 15, 10, 0, 0⟩

/-- A box the model is sure about. -/
def box9 : Box := { cls := 0, xyxy := [], conf := 9/10 }

/-- A frame with two confident intruder boxes. -/
def pred2 : Prediction := { names := fun _ => "Intruder", boxes := [box9, box9] }

/-- A session whose frame holds two admitted detections, with every
collaborator succeeding. -/
def sess2 : Session :=
  { read := some ([1, 2, 3], [pred2]), now := dt0,
    smtp := fun _ => SmtpResult.sent, db := fun _ => okDb }

/-- A session whose frame read fails (`ret == False`). -/
def sessFault : Session :=
  { read := none, now := dt0, smtp := fun _ => SmtpResult.sent,
    db := fun _ => okDb }

/-! ### Helper lemmas on the component models -/

/-- The subject line built at main.py line 166. -/
def mailSubject (t : DateTime) : String :=
  "*Intruder Alert" ++ " : " ++ strftime_dBYA t ++ " " ++ "Hours*"

/-- The body text built at main.py lines 180-181. -/
def mailBody (t : DateTime) : String :=
  "Dear Control Room, \n This is to keep you informed " ++
  "that an intruder has entered the campus at" ++ " " ++ strftime_dBYA t ++
  " " ++ "Hours"

/-- Whether a transport outcome is a successful send. -/
def smtpSent : SmtpResult → Bool
  | .sent => true
  | .exn _ => false

/-- On a timestamp formatted from a valid instant, `mail_trigger` builds
the message, makes exactly one send attempt, and returns normally whatever
the transport does. -/
theorem mail_trigger_valid (smtp : SmtpResult) (image : List ℕ)
    (t : DateTime) (config : Config) (h : validDT t) :
    mail_trigger smtp image (strftime_YmdHMS t) config =
      { message := some
          { fromAddr := config.sender_email
            toAddr := config.recipient_email
            subject := mailSubject t
            imagePart := { content := savefig_jpeg image, subtype := "jpeg",
                           filename := "image.jpg" }
            bodyText := mailBody t }
        sendAttempts := 1
        sent := smtpSent smtp
        log := some (match smtp with
          | .sent => "Email sent successfully"
          | .exn e => "Failed to send email: " ++ e)
        error := none } := by
  unfold mail_trigger
  rw [strptime_strftime t h]
  cases smtp <;> rfl

/-- `database_entry` raises exactly when one of the connect, execute or
commit steps fails. -/
theorem database_entry_error_iff (o : DbOracle) (image : List ℕ)
    (ts : String) :
    (database_entry o image ts).error = none ↔
      o.connectOk = true ∧ o.executeOk = true ∧ o.commitOk = true := by
  unfold database_entry
  rcases o with ⟨c, e, k⟩
  cases c <;> cases e <;> cases k <;> simp

/-- `database_entry` commits at most one row, and exactly the transformed
row on success. -/
theorem database_entry_inserted (o : DbOracle) (image : List ℕ)
    (ts : String) :
    (database_entry o image ts).inserted =
      if o.connectOk ∧ o.executeOk ∧ o.commitOk then
        [{ image := imencode_jpg (cvtColor_BGR2RGB image),
           captured_time := ts }]
      else [] := by
  unfold database_entry
  rcases o with ⟨c, e, k⟩
  cases c <;> cases e <;> cases k <;> simp

/-- The actions and the outcome of handling one admitted event, for a
valid clock: one mail attempt, one store call, the committed rows, and
the store's error as the outcome. -/
theorem processEvent_eval (config : Config) (smtp : SmtpResult)
    (dbo : DbOracle) (img : List ℕ) (t : DateTime) (h : validDT t) :
    processEvent config smtp dbo img t =
      (Action.mailAttempt (mailSubject t) (smtpSent smtp) ::
       Action.dbCall (strftime_YmdHMS t) ::
       (database_entry dbo img (strftime_YmdHMS t)).inserted.map
         Action.dbInsert,
       (database_entry dbo img (strftime_YmdHMS t)).error) := by
  simp only [processEvent]
  rw [mail_trigger_valid smtp img t config h]
  rfl

/-- Counts add over trace concatenation. -/
theorem countMail_append (a b : List Action) :
    countMail (a ++ b) = countMail a + countMail b := by
  simp [countMail, List.filter_append]

theorem countDb_append (a b : List Action) :
    countDb (a ++ b) = countDb a + countDb b := by
  simp [countDb, List.filter_append]

/-- Committed-row actions are neither mail attempts nor store calls. -/
theorem countMail_map_dbInsert (l : List Row) :
    countMail (l.map Action.dbInsert) = 0 := by
  induction l with
  | nil => rfl
  | cons r l ih => simp [countMail, List.filter_cons, ih]

theorem countDb_map_dbInsert (l : List Row) :
    countDb (l.map Action.dbInsert) = 0 := by
  induction l with
  | nil => rfl
  | cons r l ih => simp [countDb, List.filter_cons, ih]

/-- Handling a one-detection frame is the policy test around one
`processEvent`. -/
theorem processDetections_singleton (config : Config) (s : Session)
    (img : List ℕ) (d : DetectedObject) (i : ℕ) :
    processDetections config s img [d] i =
      if d.cls = "Intruder" ∧ (1/2 : ℚ) < d.probability then
        processEvent config (s.smtp i) (s.db i) img s.now
      else ([], none) := by
  simp only [processDetections]
  split_ifs with hc
  · rcases hpe : processEvent config (s.smtp i) (s.db i) img s.now with
      ⟨acts, err⟩
    cases err <;> simp [processDetections]
  · rfl

/-! ### The claims -/

/-- C1: a detection candidate is admitted by the event filter — creating
an intrusion event that triggers the notification and the persistence —
exactly when its class is `Intruder` and its confidence exceeds `0.5`;
confidence exactly `0.50` is never admitted and `0.51` (for an intruder
candidate) always is. -/
theorem eventFilter_admits_iff (config : Config) (s : Session)
    (img : List ℕ) (d : DetectedObject) (h : validDT s.now) :
    ((1 ≤ countMail (processDetections config s img [d] 0).1 ∧
      1 ≤ countDb (processDetections config s img [d] 0).1) ↔
      (d.cls = "Intruder" ∧ 1/2 < d.probability)) ∧
    (d.probability = 50/100 →
      processDetections config s img [d] 0 = ([], none)) ∧
    (d.cls = "Intruder" → d.probability = 51/100 →
      countMail (processDetections config s img [d] 0).1 = 1 ∧
      countDb (processDetections config s img [d] 0).1 = 1) := by
  rw [processDetections_singleton]
  by_cases hc : d.cls = "Intruder" ∧ (1/2 : ℚ) < d.probability
  · rw [if_pos hc]
    rw [processEvent_eval _ _ _ _ _ h]
    refine ⟨?_, ?_, ?_⟩
    · simp only [iff_true_intro hc, iff_true]
      constructor <;>
        simp [countMail, countDb, List.filter_cons, countMail_map_dbInsert,
          countDb_map_dbInsert]
    · intro h50
      exfalso
      rw [h50] at hc
      have := hc.2
      norm_num at this
    · intro _ _
      constructor <;>
        simp [countMail, countDb, List.filter_cons, countMail_map_dbInsert,
          countDb_map_dbInsert]
  · rw [if_neg hc]
    refine ⟨?_, fun _ => rfl, ?_⟩
    · simp only [iff_false_intro hc, iff_false]
      intro hcontra
      have := hcontra.1
      simp [countMail] at this
    · intro hcls h51
      exfalso
      exact hc ⟨hcls, by rw [h51]; norm_num⟩

/-- Witness for C1 at a concrete boundary candidate of confidence 0.51. -/
theorem eventFilter_admits_iff_witness :
    countMail (processDetections cfg0 sess2 [9]
      [⟨"Intruder", [], 51/100⟩] 0).1 = 1 ∧
    countDb (processDetections cfg0 sess2 [9]
      [⟨"Intruder", [], 51/100⟩] 0).1 = 1 :=
  (eventFilter_admits_iff cfg0 sess2 [9] ⟨"Intruder", [], 51/100⟩
    (by decide)).2.2 rfl rfl

/-- Two-decimal rounding collapses the interval just above one half:
for `0.5 < q < 0.505`, `round(q, 2) = 0.5`. -/
theorem pyRound2_near_half {q : ℚ} (h1 : 1/2 < q) (h2 : q < 101/200) :
    pyRound2 q = 1/2 := by
  have hfloor : ⌊q * 100⌋ = 50 := by
    rw [Int.floor_eq_iff]
    constructor <;> push_cast <;> linarith
  have hround : pyRound (q * 100) = 50 := by
    have := pyRound_eq_floor (q := q * 100)
      (by rw [hfloor]; push_cast; linarith)
    rw [this, hfloor]
  unfold pyRound2
  rw [hround]
  norm_num

/-- Evaluation of `pyRound2` at the fixture confidence. -/
theorem pyRound2_nine_tenths : pyRound2 (9/10 : ℚ) = 9/10 := by
  unfold pyRound2
  rw [show ((9:ℚ)/10 * 100) = ((90:ℤ):ℚ) by norm_num, pyRound_intCast]
  norm_num

/-- Evaluation of `model_predict` on the two-box fixture frame. -/
theorem model_predict_pred2 :
    model_predict [pred2] =
      [⟨"Intruder", [], 9/10⟩, ⟨"Intruder", [], 9/10⟩] := by
  simp [model_predict, pred2, box9, List.filterMap_cons, pyRound2_nine_tenths,
        show (2⁻¹ : ℚ) < 9/10 from by norm_num]

/-- C10: every candidate `model_predict` returns already satisfies the
intrusion policy — its class is `Intruder` and its probability, which is
the raw confidence of one of the frame's boxes rounded to two decimals,
exceeds `0.5`; and since rounding collapses `(0.5, 0.505)` onto `0.5`,
raw confidences in that interval never yield a candidate. -/
theorem model_predict_prefiltered (predictions : List Prediction) :
    (∀ d ∈ model_predict predictions, d.cls = "Intruder" ∧
      1/2 < d.probability ∧
      ∃ p ∈ predictions.head?, ∃ b ∈ p.boxes,
        d.probability = pyRound2 b.conf ∧ d.cls = p.names b.cls) ∧
    (∀ q : ℚ, 1/2 < q → q < 101/200 → pyRound2 q = 1/2) := by
  constructor
  · intro d hd
    match predictions with
    | [] => simp [model_predict] at hd
    | p :: rest =>
      simp only [model_predict, List.mem_filterMap] at hd
      obtain ⟨b, hb, hsome⟩ := hd
      by_cases hc : p.names b.cls = "Intruder" ∧ (1/2 : ℚ) < pyRound2 b.conf
      · rw [if_pos hc] at hsome
        obtain rfl := Option.some_injective _ hsome
        exact ⟨hc.1, hc.2, p, by simp, b, hb, rfl, rfl⟩
      · rw [if_neg hc] at hsome
        exact absurd hsome (by simp)
  · intro q h1 h2
    exact pyRound2_near_half h1 h2

/-- Witness for C10: the fixture candidate is in the output and passes
the policy, and `0.503` rounds to exactly `0.5`. -/
theorem model_predict_prefiltered_witness :
    ((⟨"Intruder", [], 9/10⟩ : DetectedObject).cls = "Intruder" ∧
      1/2 < (⟨"Intruder", [], 9/10⟩ : DetectedObject).probability ∧
      ∃ p ∈ [pred2].head?, ∃ b ∈ p.boxes,
        (⟨"Intruder", [], 9/10⟩ : DetectedObject).probability =
          pyRound2 b.conf ∧
        (⟨"Intruder", [], 9/10⟩ : DetectedObject).cls = p.names b.cls) ∧
    pyRound2 (503/1000 : ℚ) = 1/2 :=
  ⟨(model_predict_prefiltered [pred2]).1 ⟨"Intruder", [], 9/10⟩
      (by simp [model_predict_pred2]),
   (model_predict_prefiltered [pred2]).2 (503/1000) (by norm_num)
      (by norm_num)⟩

/-- The timestamp string of the fixture instant. -/
def ts0 : String := "2023-06-15 10:00:00"

theorem strftime_dt0 : strftime_YmdHMS dt0 = ts0 := rfl

/-- The row the store commits for the fixture frame: the evidence bytes
are re-colour-converted and re-encoded before the insert. -/
def row0 : Row :=
  { image := imencode_jpg (cvtColor_BGR2RGB (imencode_jpg
      (cvtColor_BGR2RGB [1, 2, 3]))),
    captured_time := ts0 }

/-- `database_entry` under the all-success oracle. -/
theorem database_entry_okDb (image : List ℕ) (ts : String) :
    database_entry okDb image ts =
      { connAcquired := true,
        inserted := [{ image := imencode_jpg (cvtColor_BGR2RGB image),
                       captured_time := ts }],
        connClosed := true, error := none } := rfl

/-- Handling one fixture event: one successful mail attempt, one store
call, one committed row. -/
theorem processEvent_sess2 :
    processEvent cfg0 SmtpResult.sent okDb
      (imencode_jpg (cvtColor_BGR2RGB [1, 2, 3])) dt0 =
      ([Action.mailAttempt (mailSubject dt0) true, Action.dbCall ts0,
        Action.dbInsert row0], none) := by
  rw [processEvent_eval _ _ _ _ _ (by decide), database_entry_okDb]
  rfl

/-- The fixture session forwards both same-frame events. -/
theorem runSession_sess2 :
    runSession cfg0 sess2 =
      ([Action.mailAttempt (mailSubject dt0) true, Action.dbCall ts0,
        Action.dbInsert row0, Action.mailAttempt (mailSubject dt0) true,
        Action.dbCall ts0, Action.dbInsert row0], none) := by
  simp only [runSession, sess2]
  rw [model_predict_pred2]
  simp [processDetections, processEvent_sess2,
    show (2⁻¹:ℚ) < 9/10 from by norm_num]

/-- The forwarded events of the fixture run: both events of the single
frame, at the same instant. -/
theorem forwardedEvents_sess2 :
    forwardedEvents cfg0 0 [sess2] = [(0, row0), (0, row0)] := by
  simp only [forwardedEvents, runSession_sess2]
  rfl

/-- Every forwarded event happens a multiple of the 30-unit poll delay
after the start. -/
theorem forwardedEvents_time (config : Config) :
    ∀ (ss : List Session) (t0 : ℕ), ∀ x ∈ forwardedEvents config t0 ss,
      ∃ i, x.1 = t0 + 30 * i := by
  intro ss
  induction ss with
  | nil => intro t0 x hx; simp [forwardedEvents] at hx
  | cons s rest ih =>
    intro t0 x hx
    simp only [forwardedEvents] at hx
    rcases hrun : runSession config s with ⟨acts, err⟩
    rw [hrun] at hx
    cases err with
    | some e =>
      simp only [List.mem_map] at hx
      obtain ⟨r, _, rfl⟩ := hx
      exact ⟨0, rfl⟩
    | none =>
      simp only [List.mem_append, List.mem_map] at hx
      rcases hx with ⟨r, _, rfl⟩ | hx
      · exact ⟨0, rfl⟩
      · obtain ⟨i, hi⟩ := ih (t0 + 30) x hx
        exact ⟨i + 1, by omega⟩

/-- C2 (amended): the code has no dedup gate — every admitted event is
forwarded to the dispatcher and the store — and the only temporal spacing
is the poll delay: two forwarded events either carry the same frame
instant or lie at least 30 time units apart. -/
theorem dedup_spacing (config : Config) (t0 : ℕ) (ss : List Session)
    (a b : ℕ × Row) (ha : a ∈ forwardedEvents config t0 ss)
    (hb : b ∈ forwardedEvents config t0 ss) :
    a.1 = b.1 ∨ a.1 + 30 ≤ b.1 ∨ b.1 + 30 ≤ a.1 := by
  obtain ⟨i, hi⟩ := forwardedEvents_time config ss t0 a ha
  obtain ⟨j, hj⟩ := forwardedEvents_time config ss t0 b hb
  omega

/-- Counterexample to C2 as stated: the two admitted events of one frame
occur 0 < 30 time units apart, yet both are forwarded past the claimed
gate to the dispatcher and the store — the second is not suppressed. -/
theorem dedup_counterexample :
    forwardedEvents cfg0 0 [sess2] = [(0, row0), (0, row0)] ∧
    (forwardedEvents cfg0 0 [sess2]).length = 2 ∧ 0 + 0 < 30 := by
  refine ⟨forwardedEvents_sess2, ?_, by norm_num⟩
  rw [forwardedEvents_sess2]
  rfl

/-- Witness for the amended C2 at the two concrete fixture events. -/
theorem dedup_spacing_witness :
    ((0, row0) : ℕ × Row).1 = ((0, row0) : ℕ × Row).1 ∨
    ((0, row0) : ℕ × Row).1 + 30 ≤ ((0, row0) : ℕ × Row).1 ∨
    ((0, row0) : ℕ × Row).1 + 30 ≤ ((0, row0) : ℕ × Row).1 :=
  dedup_spacing cfg0 0 [sess2] (0, row0) (0, row0)
    (by simp [forwardedEvents_sess2]) (by simp [forwardedEvents_sess2])

/-- The pipeline continues with the next invocation exactly when no
exception escaped the current one. -/
theorem video_capture_continue (config : Config) (s : Session)
    (rest : List Session) (h : (runSession config s).2 = none) :
    video_capture config (s :: rest) =
      Action.openSource :: ((runSession config s).1 ++ Action.sleep 30 ::
        video_capture config rest) := by
  simp only [video_capture]
  rcases hrun : runSession config s with ⟨acts, err⟩
  rw [hrun] at h
  cases err with
  | none => rfl
  | some e => simp at h

/-- An uncaught exception ends the trace: nothing after the current
invocation happens. -/
theorem video_capture_fatal (config : Config) (s : Session)
    (rest : List Session) (e : String)
    (h : (runSession config s).2 = some e) :
    video_capture config (s :: rest) =
      Action.openSource :: (runSession config s).1 := by
  simp only [video_capture]
  rcases hrun : runSession config s with ⟨acts, err⟩
  rw [hrun] at h
  cases err with
  | none => simp at h
  | some e2 => rfl

/-- C3: a transport exception in the notification dispatch is caught and
logged inside `mail_trigger`, the store persist for the same event is
still attempted with its outcome unaffected, and the pipeline continues
to the next frame whenever the store itself does not raise. -/
theorem dispatch_failure_recovered (config : Config) (s : Session)
    (rest : List Session) (img : List ℕ) (e : String) (dbo : DbOracle)
    (t : DateTime) (h : validDT t) :
    (mail_trigger (SmtpResult.exn e) img (strftime_YmdHMS t) config).error
      = none ∧
    (mail_trigger (SmtpResult.exn e) img (strftime_YmdHMS t) config).log
      = some ("Failed to send email: " ++ e) ∧
    countDb (processEvent config (SmtpResult.exn e) dbo img t).1 = 1 ∧
    (processEvent config (SmtpResult.exn e) dbo img t).2 =
      (database_entry dbo img (strftime_YmdHMS t)).error ∧
    ((runSession config s).2 = none →
      video_capture config (s :: rest) =
        Action.openSource :: ((runSession config s).1 ++ Action.sleep 30 ::
          video_capture config rest)) := by
  rw [mail_trigger_valid _ img t config h, processEvent_eval _ _ _ _ _ h]
  refine ⟨rfl, rfl, ?_, rfl, video_capture_continue config s rest⟩
  simp [countDb, List.filter_cons, countDb_map_dbInsert]

/-- Witness for C3: a failed send on the fixture frame still reaches the
store and the pipeline proceeds to the next invocation. -/
theorem dispatch_failure_recovered_witness :
    (mail_trigger (SmtpResult.exn "auth") [1, 2, 3]
      (strftime_YmdHMS dt0) cfg0).error = none ∧
    (mail_trigger (SmtpResult.exn "auth") [1, 2, 3]
      (strftime_YmdHMS dt0) cfg0).log =
      some ("Failed to send email: " ++ "auth") ∧
    countDb (processEvent cfg0 (SmtpResult.exn "auth") okDb [1, 2, 3]
      dt0).1 = 1 ∧
    (processEvent cfg0 (SmtpResult.exn "auth") okDb [1, 2, 3] dt0).2 =
      (database_entry okDb [1, 2, 3] (strftime_YmdHMS dt0)).error ∧
    video_capture cfg0 [sess2] =
      Action.openSource :: ((runSession cfg0 sess2).1 ++ Action.sleep 30 ::
        video_capture cfg0 []) := by
  have T := dispatch_failure_recovered cfg0 sess2 [] [1, 2, 3] "auth" okDb
    dt0 (by decide)
  exact ⟨T.1, T.2.1, T.2.2.1, T.2.2.2.1,
    T.2.2.2.2 (by rw [runSession_sess2])⟩

/-- A session whose only event hits a failing insert. -/
def sessDbFail : Session :=
  { read := some ([1, 2, 3], [pred2]), now := dt0,
    smtp := fun _ => SmtpResult.sent,
    db := fun _ => ⟨true, false, true⟩ }

/-- On the failing-insert fixture the exception escapes the session. -/
theorem runSession_sessDbFail :
    runSession cfg0 sessDbFail =
      ([Action.mailAttempt (mailSubject dt0) true, Action.dbCall ts0],
       some "execute failed") := by
  simp only [runSession, sessDbFail]
  rw [model_predict_pred2]
  simp only [processDetections]
  rw [processEvent_eval _ _ _ _ _ (by decide)]
  simp [show (2⁻¹:ℚ) < 9/10 from by norm_num, database_entry]
  exact ⟨rfl, rfl⟩

/-- C4: a durable-store failure is not recovered — any failing connect,
execute or commit makes `database_entry` raise, the exception passes
through the event handling, and it terminates the pipeline: the trace
ends at the current invocation and no later session is processed. -/
theorem store_failure_fatal (config : Config) (s : Session)
    (rest : List Session) (img : List ℕ) (ts : String) (o : DbOracle) :
    ((o.connectOk = false ∨ o.executeOk = false ∨ o.commitOk = false) →
      (database_entry o img ts).error.isSome) ∧
    (∀ t : DateTime, validDT t → ∀ smtp,
      (processEvent config smtp o img t).2 =
        (database_entry o img (strftime_YmdHMS t)).error) ∧
    (∀ e, (runSession config s).2 = some e →
      video_capture config (s :: rest) =
        Action.openSource :: (runSession config s).1) := by
  refine ⟨?_, ?_, fun e he => video_capture_fatal config s rest e he⟩
  · intro hfail
    rcases o with ⟨c, ex, k⟩
    cases c <;> cases ex <;> cases k <;> simp_all [database_entry]
  · intro t ht smtp
    rw [processEvent_eval _ _ _ _ _ ht]

/-- Witness for C4: the failing-insert fixture raises out of the store
and truncates the trace at the current invocation. -/
theorem store_failure_fatal_witness :
    (database_entry ⟨true, false, true⟩ [1, 2, 3] ts0).error.isSome ∧
    video_capture cfg0 [sessDbFail, sess2] =
      Action.openSource :: (runSession cfg0 sessDbFail).1 := by
  have T := store_failure_fatal cfg0 sessDbFail [sess2] [1, 2, 3] ts0
    ⟨true, false, true⟩
  exact ⟨T.1 (Or.inr (Or.inl rfl)),
    T.2.2 "execute failed" (by rw [runSession_sessDbFail])⟩

/-- C5 (code bug): the store does not persist the evidence bytes it was
given — `database_entry` re-applies the colour conversion and the JPEG
encoding to the already-encoded evidence before the insert, so the row
read back differs from the evidence image; the timestamp half of the
round-trip does hold (`YYYY-MM-DD HH:MM:SS`, parseable back to the
instant). -/
theorem store_roundtrip_bug :
    (database_entry okDb [1, 2, 3] ts0).inserted =
      [{ image := [255, 216, 3, 2, 1], captured_time := ts0 }] ∧
    ([255, 216, 3, 2, 1] : List ℕ) ≠ [1, 2, 3] ∧
    strptime_YmdHMS ts0 = some dt0 := by
  refine ⟨?_, by decide, rfl⟩
  rw [database_entry_okDb]
  rfl

/-- C6 (amended): the store's connection is released exactly on the
success path — when the insert or the commit raises, `cursor.close()`
and `connection.close()` are skipped and the acquired connection is not
released by the function. -/
theorem store_release_iff (o : DbOracle) (image : List ℕ) (ts : String) :
    ((database_entry o image ts).connClosed = true ↔
      (database_entry o image ts).error = none) ∧
    (o.connectOk = true →
      (database_entry o image ts).connAcquired = true) := by
  rcases o with ⟨c, e, k⟩
  cases c <;> cases e <;> cases k <;> simp [database_entry]

/-- Counterexample to C6 as stated: with a failing insert the call
acquires the connection, raises, and never releases it. -/
theorem store_release_counterexample :
    (database_entry ⟨true, false, true⟩ [1, 2, 3] ts0).connAcquired
      = true ∧
    (database_entry ⟨true, false, true⟩ [1, 2, 3] ts0).connClosed
      = false ∧
    (database_entry ⟨true, false, true⟩ [1, 2, 3] ts0).error.isSome
      = true :=
  ⟨rfl, rfl, rfl⟩

/-- Witness for the amended C6 on the all-success oracle. -/
theorem store_release_iff_witness :
    (database_entry okDb [1] ts0).connAcquired = true :=
  (store_release_iff okDb [1] ts0).2 rfl

/-- C7: on a frame-acquisition fault the controller logs the fault,
sleeps the fixed 30-unit delay, and the recursive call reopens the
source and resumes with the remaining invocations — the trace
continues instead of the process exiting. -/
theorem source_fault_restart (config : Config) (s : Session)
    (rest : List Session) (h : s.read = none) :
    video_capture config (s :: rest) =
      Action.openSource :: Action.logReadError :: Action.sleep 30 ::
        video_capture config rest ∧
    ∃ tl, video_capture config rest = Action.openSource :: tl := by
  have hrun : runSession config s = ([Action.logReadError], none) := by
    unfold runSession
    rw [h]
  constructor
  · rw [video_capture_continue config s rest (by rw [hrun]), hrun]
    rfl
  · cases rest with
    | nil => exact ⟨[], rfl⟩
    | cons s2 rest2 =>
      simp only [video_capture]
      rcases runSession config s2 with ⟨acts, err⟩
      cases err <;> exact ⟨_, rfl⟩

/-- Witness for C7 on the fault fixture. -/
theorem source_fault_restart_witness :
    video_capture cfg0 [sessFault] =
      Action.openSource :: Action.logReadError :: Action.sleep 30 ::
        video_capture cfg0 [] :=
  (source_fault_restart cfg0 sessFault [] rfl).1

/-- The transport-side actions of a trace fragment. -/
def mailActions (acts : List Action) : List Action :=
  acts.filter (fun a => match a with
    | Action.mailAttempt _ _ => true
    | _ => false)

/-- The store-side actions of a trace fragment. -/
def dbActions (acts : List Action) : List Action :=
  acts.filter (fun a => match a with
    | Action.dbCall _ => true
    | Action.dbInsert _ => true
    | _ => false)

theorem mailActions_map_dbInsert (l : List Row) :
    (l.map Action.dbInsert).filter (fun a => match a with
      | Action.mailAttempt _ _ => true
      | _ => false) = [] := by
  induction l with
  | nil => rfl
  | cons r l ih => simp [List.filter_cons, ih]

/-- C8: handling one confirmed event makes exactly one notification send
attempt and at most one persist (exactly one store call, at most one
committed row), and the two sides are independent: the store-side
actions do not depend on the transport outcome, and the mail-side
actions do not depend on the store outcome. -/
theorem event_once_independent (config : Config) (img : List ℕ)
    (t : DateTime) (smtp smtp2 : SmtpResult) (dbo dbo2 : DbOracle)
    (h : validDT t) :
    countMail (processEvent config smtp dbo img t).1 = 1 ∧
    countDb (processEvent config smtp dbo img t).1 = 1 ∧
    (database_entry dbo img (strftime_YmdHMS t)).inserted.length ≤ 1 ∧
    dbActions (processEvent config smtp dbo img t).1 =
      dbActions (processEvent config smtp2 dbo img t).1 ∧
    mailActions (processEvent config smtp dbo img t).1 =
      mailActions (processEvent config smtp dbo2 img t).1 := by
  rw [processEvent_eval _ smtp dbo img t h,
      processEvent_eval _ smtp2 dbo img t h,
      processEvent_eval _ smtp dbo2 img t h]
  refine ⟨?_, ?_, ?_, ?_, ?_⟩
  · simp [countMail, List.filter_cons, countMail_map_dbInsert]
  · simp [countDb, List.filter_cons, countDb_map_dbInsert]
  · rw [database_entry_inserted]
    split_ifs <;> simp
  · simp [dbActions, List.filter_cons]
  · simp [mailActions, List.filter_cons, mailActions_map_dbInsert]

/-- Witness for C8 at the fixture event under differing transport and
store outcomes. -/
theorem event_once_independent_witness :
    countMail (processEvent cfg0 SmtpResult.sent okDb [1] dt0).1 = 1 ∧
    countDb (processEvent cfg0 SmtpResult.sent okDb [1] dt0).1 = 1 ∧
    (database_entry okDb [1] (strftime_YmdHMS dt0)).inserted.length ≤ 1 ∧
    dbActions (processEvent cfg0 SmtpResult.sent okDb [1] dt0).1 =
      dbActions (processEvent cfg0 (SmtpResult.exn "auth") okDb [1]
        dt0).1 ∧
    mailActions (processEvent cfg0 SmtpResult.sent okDb [1] dt0).1 =
      mailActions (processEvent cfg0 SmtpResult.sent ⟨true, false, true⟩
        [1] dt0).1 :=
  event_once_independent cfg0 [1] dt0 SmtpResult.sent
    (SmtpResult.exn "auth") okDb ⟨true, false, true⟩ (by decide)

/-- C9: the notification built for a dispatched event carries a subject
embedding the event instant re-formatted as
`dd-MonthName-yyyy [Weekday], HH:MM:SS`, the intrusion body text, and
the JPEG rendering of the evidence image as an attached binary part
named `image.jpg`. -/
theorem dispatcher_message_format (config : Config) (smtp : SmtpResult)
    (image : List ℕ) (t : DateTime) (h : validDT t) :
    (mail_trigger smtp image (strftime_YmdHMS t) config).message =
      some { fromAddr := config.sender_email
             toAddr := config.recipient_email
             subject := "*Intruder Alert" ++ " : " ++ strftime_dBYA t ++
               " " ++ "Hours*"
             imagePart := { content := savefig_jpeg image,
                            subtype := "jpeg", filename := "image.jpg" }
             bodyText := mailBody t } ∧
    (mail_trigger smtp image (strftime_YmdHMS t) config).sendAttempts
      = 1 := by
  rw [mail_trigger_valid smtp image t config h]
  exact ⟨rfl, rfl⟩

/-- Witness for C9 at the fixture instant, with the subject fully
evaluated. -/
theorem dispatcher_message_format_witness :
    (mail_trigger SmtpResult.sent [1, 2, 3] (strftime_YmdHMS dt0)
      cfg0).message =
      some { fromAddr := "alert@campus"
             toAddr := "control@campus"
             subject :=
               "*Intruder Alert : 15-June-2023 [Thursday], 10:00:00 Hours*"
             imagePart := { content := savefig_jpeg [1, 2, 3],
                            subtype := "jpeg", filename := "image.jpg" }
             bodyText := mailBody dt0 } ∧
    (mail_trigger SmtpResult.sent [1, 2, 3] (strftime_YmdHMS dt0)
      cfg0).sendAttempts = 1 :=
  dispatcher_message_format cfg0 SmtpResult.sent [1, 2, 3] dt0 (by decide)

end NammaAEye
